import Mathlib

/-!
Verification of the Jumbles frontend game core against its specification.

The definitions below are a shallow embedding of the puzzle logic in
`src/components/Grid.tsx` (the primary `forwardRef` Grid component), of the
`performSwap` variant of the Grid component, and of the application shell in
`src/App.tsx` (the `rowSolved` flags and the `buildEmojiGrid` share summary).

React semantics captured by the embedding:
* component state is `(grid, swaps, selected)`;
* `prevValid` is `useState(validRows)[0]`: a state value initialised once at
  mount from the initial grid's validity and never updated afterwards (its
  setter is discarded), so it is a constant of the component instance;
* the two `useEffect` hooks re-run exactly when their dependencies change,
  i.e. after every grid/swap-count change (every `doSwap`, and `reset` back
  to the initial grid) but not after a pure selection change;
* callbacks fired synchronously inside a handler (`onSwap`) come before the
  effect-driven callbacks of the commit that follows.
-/

/-- The swap budget constant of `Grid.tsx` (`export const MAX_SWAPS = 14`). -/
def MAX_SWAPS : Nat := 14

/-- Callback events observable by the parent component: `onRowSolved i`,
`onSolved moves`, `onOutOfMoves`, and `onSwap count`. -/
inductive Event where
  | rowSolved (i : Nat)
  | solved (moves : Nat)
  | outOfMoves
  | swapCount (n : Nat)
deriving DecidableEq, Repr

/-- React state of the Grid component: `grid`, `swaps`, `selected`. -/
structure GridState where
  grid : List (List Char)
  swaps : Nat
  selected : Option (Nat × Nat)
deriving DecidableEq, Repr

/-- Cell read `grid[r][c]` (in-bounds by the caller contract). -/
def getCell (g : List (List Char)) (r c : Nat) : Char :=
  (g.getD r []).getD c ' '

/-- Cell write `grid[r][c] = ch` on a fresh copy of the grid. -/
def setCell (g : List (List Char)) (r c : Nat) (ch : Char) : List (List Char) :=
  g.set r ((g.getD r []).set c ch)

/-- The destructuring swap
`[next[r1][c1], next[r2][c2]] = [next[r2][c2], next[r1][c1]]`:
both right-hand sides are read from the original grid, then written. -/
def swapCells (g : List (List Char)) (r1 c1 r2 c2 : Nat) : List (List Char) :=
  setCell (setCell g r1 c1 (getCell g r2 c2)) r2 c2 (getCell g r1 c1)

/-- `row.join("").toLowerCase()`: the row's letters concatenated in order
and lowercased. -/
def lowerWord (row : List Char) : String :=
  String.mk (row.map Char.toLower)

/-- `grid.map((row) => WORD_SET.has(row.join("").toLowerCase()))`:
the derived per-row validity vector. The dictionary `dict` stands for the
`WORD_SET` the component closes over. -/
def validRows (dict : List String) (g : List (List Char)) : List Bool :=
  g.map (fun row => dict.contains (lowerWord row))

/-- `prevValid = useState(validRows)[0]`: initialised from the mount-time
validity of the initial grid and never written again. -/
def prevValid (dict : List String) (initial : List (List Char)) : List Bool :=
  validRows dict initial

/-- The first effect:
`validRows.forEach((ok, i) => { if (ok && !prevValid[i]) onRowSolved(i); })`. -/
def rowSolvedEvents (pv vr : List Bool) : List Event :=
  (List.range vr.length).filterMap (fun i =>
    if vr.getD i false && !(pv.getD i false) then some (Event.rowSolved i)
    else none)

/-- The second effect:
`if (validRows.every(Boolean)) onSolved(swaps);`
`if (swaps >= MAX_SWAPS && !validRows.every(Boolean)) onOutOfMoves();`. -/
def statusEvents (vr : List Bool) (swaps : Nat) : List Event :=
  (if vr.all (fun b => b) then [Event.solved swaps] else [])
    ++ (if MAX_SWAPS ≤ swaps ∧ ¬(vr.all (fun b => b) = true) then
          [Event.outOfMoves]
        else [])

/-- All effect-driven events emitted after a commit that changed the grid
or the swap counter, for post-commit state `s`. -/
def afterSwapEvents (dict : List String) (initial : List (List Char))
    (s : GridState) : List Event :=
  rowSolvedEvents (prevValid dict initial) (validRows dict s.grid)
    ++ statusEvents (validRows dict s.grid) s.swaps

/-- `doSwap(r1, c1, r2, c2)`: exchange the two cells, increment the counter,
call `onSwap(newCount)`. There is no budget guard in this variant. -/
def doSwap (s : GridState) (r1 c1 r2 c2 : Nat) : GridState × List Event :=
  ({ grid := swapCells s.grid r1 c1 r2 c2
     swaps := s.swaps + 1
     selected := s.selected },
   [Event.swapCount (s.swaps + 1)])

/-- The draggable/droppable id of a tile: `` `${r}-${c}` ``. -/
def cellId (r c : Nat) : String :=
  toString r ++ "-" ++ toString c

/-- Mount-time state: `useState(initial)`, `useState(0)`, `useState(null)`. -/
def initState (initial : List (List Char)) : GridState :=
  { grid := initial, swaps := 0, selected := none }

/-- External inputs to the Grid component: a tap on tile `(r, c)`, a drag of
tile `(r1, c1)` ending over an optional droppable, or a `reset()` call. -/
inductive Input where
  | tap (r c : Nat)
  | drag (r1 c1 : Nat) (over : Option (Nat × Nat))
  | reset
deriving DecidableEq, Repr

/-- One input step of the Grid component, returning the post-commit state and
the events delivered to the parent, in order. `tap` is `handleTileClick`,
`drag` is `handleDragEnd` (ids compared as strings), `reset` is the
imperative-handle `reset()`. Effects re-run only when the grid or the swap
counter changed. -/
def step (dict : List String) (initial : List (List Char)) (s : GridState) :
    Input → GridState × List Event
  | Input.tap r c =>
    match s.selected with
    | some sel =>
      if sel.1 = r ∧ sel.2 = c then
        ({ s with selected := none }, [])
      else
        let p := doSwap s sel.1 sel.2 r c
        let s2 := { p.1 with selected := none }
        (s2, p.2 ++ afterSwapEvents dict initial s2)
    | none => ({ s with selected := some (r, c) }, [])
  | Input.drag r1 c1 over =>
    match over with
    | none => (s, [])
    | some rc =>
      if cellId r1 c1 = cellId rc.1 rc.2 then (s, [])
      else
        let p := doSwap s r1 c1 rc.1 rc.2
        (p.1, p.2 ++ afterSwapEvents dict initial p.1)
  | Input.reset =>
    (initState initial,
     Event.swapCount 0 :: afterSwapEvents dict initial (initState initial))

/-- Run a list of inputs from a given state, collecting events in order. -/
def runSteps (dict : List String) (initial : List (List Char)) :
    GridState → List Input → GridState × List Event
  | s, [] => (s, [])
  | s, i :: rest =>
    let p := step dict initial s i
    let q := runSteps dict initial p.1 rest
    (q.1, p.2 ++ q.2)

/-- Events of the initial mount: both effects run once on the initial state. -/
def mountEvents (dict : List String) (initial : List (List Char)) : List Event :=
  afterSwapEvents dict initial (initState initial)

/-- A full component lifetime: mount on `initial`, then the given inputs. -/
def runTrace (dict : List String) (initial : List (List Char))
    (inputs : List Input) : GridState × List Event :=
  let p := runSteps dict initial (initState initial) inputs
  (p.1, mountEvents dict initial ++ p.2)

/-- `performSwap` of the Grid variant in `src/unnamed/part_001`: the same
two-cell exchange, but guarded by `if (swaps >= MAX_SWAPS) return;`, and it
clears the selection itself. -/
def performSwap (s : GridState) (r1 c1 r2 c2 : Nat) : GridState :=
  if MAX_SWAPS ≤ s.swaps then s
  else
    { grid := swapCells s.grid r1 c1 r2 c2
      swaps := s.swaps + 1
      selected := none }

/-- Apply a list of requested swaps `(r1, c1, r2, c2)` in order, each through
the `doSwap` cell exchange. -/
def applySwaps (g : List (List Char)) :
    List (Nat × Nat × Nat × Nat) → List (List Char)
  | [] => g
  | q :: rest => applySwaps (swapCells g q.1 q.2.1 q.2.2.1 q.2.2.2) rest

/-- The multiset of all letters in the grid. -/
def gridLetters (g : List (List Char)) : Multiset Char :=
  (g.flatten : Multiset Char)

/-- A swap request whose four coordinates are within the grid's bounds. -/
def inBoundsReq (g : List (List Char)) (q : Nat × Nat × Nat × Nat) : Prop :=
  q.1 < g.length ∧ q.2.1 < (g.getD q.1 []).length ∧
    q.2.2.1 < g.length ∧ q.2.2.2 < (g.getD q.2.2.1 []).length

instance (g : List (List Char)) (q : Nat × Nat × Nat × Nat) :
    Decidable (inBoundsReq g q) := by
  unfold inBoundsReq; infer_instance

/-- React state of the App shell relevant to the game: the per-row solved
flags, the solved-moves capture, the out-of-moves modal flag, and the live
swap count. -/
structure AppState where
  rowSolved : List Bool
  solvedMoves : Option Nat
  showGiveUp : Bool
  swapCount : Nat
deriving DecidableEq, Repr

/-- App state at mount: flags all false, nothing solved, counter 0. -/
def appInit : AppState :=
  { rowSolved := [false, false, false, false]
    solvedMoves := none
    showGiveUp := false
    swapCount := 0 }

/-- The App's reaction to one Grid callback: `handleRowSolved` sets the row's
flag to `true`, `handlePuzzleSolved` records the moves, `handleOutOfMoves`
opens the give-up modal, `onSwap` stores the count. -/
def applyEvent (a : AppState) : Event → AppState
  | Event.rowSolved r => { a with rowSolved := a.rowSolved.set r true }
  | Event.solved m => { a with solvedMoves := some m }
  | Event.outOfMoves => { a with showGiveUp := true }
  | Event.swapCount n => { a with swapCount := n }

/-- `s.repeat(n)` on strings. -/
def repeatStr (s : String) (n : Nat) : String :=
  String.join (List.replicate n s)

/-- `rowSolved.map((v) => (v ? green.repeat(5) : red.repeat(5)))`:
the per-row lines of the share summary. -/
def shareRowLines (flags : List Bool) : List String :=
  flags.map (fun v => if v then repeatStr "🟢" 5 else repeatStr "🔴" 5)

/-- `${moves}` for a `number | null` value. -/
def movesText : Option Nat → String
  | some m => toString m
  | none => "null"

/-- `buildEmojiGrid(ok, moves)` from `src/App.tsx`: title line followed by
one glyph line per tracked row flag, joined by newlines. -/
def buildEmojiGrid (ok : Bool) (moves : Option Nat) (puzzleId : String)
    (hardMode : Bool) (rowSolved : List Bool) : String :=
  let rows := shareRowLines rowSolved
  let tag := if hardMode then " (hard)" else ""
  let title :=
    if ok then
      "Jumbles " ++ puzzleId ++ tag ++ " — " ++ movesText moves ++ "/14 swaps"
    else
      "I got jumbled today" ++ tag ++ " :("
  title ++ "\n" ++ String.intercalate "\n" rows

/-! ## Helper lemmas -/

lemma getD_false_lt_length (l : List Bool) (r : Nat)
    (h : l.getD r false = true) : r < l.length := by
  by_contra hr
  push_neg at hr
  rw [List.getD_eq_getElem?_getD, List.getElem?_eq_none hr] at h
  simp at h

lemma getD_set_true (l : List Bool) (i r : Nat)
    (h : l.getD r false = true) : (l.set i true).getD r false = true := by
  have hr : r < l.length := getD_false_lt_length l r h
  by_cases hir : i = r
  · subst hir
    rw [List.getD_eq_getElem?_getD, List.getElem?_set_self hr]
    rfl
  · rw [List.getD_eq_getElem?_getD, List.getElem?_set_ne hir,
      ← List.getD_eq_getElem?_getD]
    exact h

lemma rowSolvedEvents_self (vr : List Bool) : rowSolvedEvents vr vr = [] := by
  simp [rowSolvedEvents]

/-! ## Concrete traces used by the counterexamples -/

/-- A 4×5 grid of pairwise distinct letters. -/
def cexGrid : List (List Char) :=
  [['a', 'b', 'c', 'd', 'e'], ['f', 'g', 'h', 'i', 'j'],
   ['k', 'l', 'm', 'n', 'o'], ['p', 'q', 'r', 's', 't']]

/-- `n` completed tap-to-swap exchanges of cells (0,0) and (0,1). -/
def swapPairs (n : Nat) : List Input :=
  (List.replicate n [Input.tap 0 0, Input.tap 0 1]).flatten

/-- Dictionary for the re-firing traces. -/
def dict2 : List String := ["merry", "apple", "sorry", "hello"]

/-- Initial grid whose row 1 is one swap away from "apple"; the other three
rows are already words. -/
def g2 : List (List Char) :=
  [['m', 'e', 'r', 'r', 'y'], ['a', 'p', 'l', 'p', 'e'],
   ['s', 'o', 'r', 'r', 'y'], ['h', 'e', 'l', 'l', 'o']]

/-- Swap #1 fixes row 1 into "apple"; swap #2 exchanges its two equal
letters 'p', leaving row 1 the valid word "apple". -/
def inputs2 : List Input :=
  [Input.tap 1 2, Input.tap 1 3, Input.tap 1 1, Input.tap 1 2]

/-- Dictionary for the share-summary trace. -/
def dict9 : List String := ["stack"]

/-- Initial grid whose row 0 is "stcak", one swap away from "stack". -/
def g9 : List (List Char) :=
  [['s', 't', 'c', 'a', 'k'], ['q', 'w', 'e', 'r', 't'],
   ['z', 'x', 'c', 'v', 'b'], ['q', 'a', 'z', 'w', 's']]

/-- Swap #1 turns row 0 into the valid word "stack"; swap #2 turns it into
the invalid "tsack", so row 0 is invalid at game end. -/
def inputs9 : List Input :=
  [Input.tap 0 2, Input.tap 0 3, Input.tap 0 0, Input.tap 0 1]

/-! ## Claims -/

/-- Claim C1, counterexample: in the primary Grid component, from the
reachable state with the swap counter at the configured maximum (14), a
further tap-to-swap request is not rejected — the grid changes and the
counter increments to 15. -/
theorem c1_counterexample :
    (runTrace [] cexGrid (swapPairs 14)).1.swaps = MAX_SWAPS ∧
    (runSteps [] cexGrid (runTrace [] cexGrid (swapPairs 14)).1
        [Input.tap 0 0, Input.tap 0 1]).1.swaps = MAX_SWAPS + 1 ∧
    ¬(runSteps [] cexGrid (runTrace [] cexGrid (swapPairs 14)).1
        [Input.tap 0 0, Input.tap 0 1]).1.grid =
      (runTrace [] cexGrid (swapPairs 14)).1.grid := by
  decide

/-- Claim C1, amended: in the `performSwap` Grid variant, a swap requested
with the counter at the configured maximum is rejected silently: the state
(grid, counter, selection) is returned unchanged. -/
theorem c1_amended_guard (s : GridState) (r1 c1 r2 c2 : Nat)
    (h : s.swaps = MAX_SWAPS) : performSwap s r1 c1 r2 c2 = s := by
  simp [performSwap, h]

/-- Witness for `c1_amended_guard` at a concrete state with 14 swaps used. -/
theorem c1_amended_guard_witness :
    performSwap { grid := cexGrid, swaps := 14, selected := none } 0 0 0 1 =
      { grid := cexGrid, swaps := 14, selected := none } :=
  c1_amended_guard { grid := cexGrid, swaps := 14, selected := none } 0 0 0 1 rfl

/-- Claim C2: in the trace where row 1 becomes valid at swap #1 and stays
valid through swap #2, `onRowSolved(1)` fires twice — once per grid change
while the row remains valid — not exactly once per invalid-to-valid
transition as claimed. -/
theorem c2_row_solved_refires :
    ((runTrace dict2 g2 inputs2).2.count (Event.rowSolved 1) = 2) ∧
    ¬((runTrace dict2 g2 inputs2).2.count (Event.rowSolved 1) = 1) := by
  decide

/-- Claim C3: in the same trace, all four rows become valid at swap #1 and
remain valid after swap #2, and `onSolved` fires at both evaluations (with
moves 1 and then 2) — not exactly once per puzzle instance as claimed. -/
theorem c3_solved_refires :
    ((runTrace dict2 g2 inputs2).2.filter
        (fun e => match e with | Event.solved _ => true | _ => false)).length
      = 2 ∧
    Event.solved 1 ∈ (runTrace dict2 g2 inputs2).2 ∧
    Event.solved 2 ∈ (runTrace dict2 g2 inputs2).2 := by
  decide

/-- Claim C5: a swap request of a cell with itself is a no-op. Tapping the
already-selected cell only clears the selection (grid and counter unchanged,
no events); dropping a tile onto its own position changes nothing and emits
nothing. -/
theorem c5_self_swap_noop (dict : List String) (initial : List (List Char))
    (s : GridState) (r c : Nat) (h : s.selected = some (r, c)) :
    step dict initial s (Input.tap r c) = ({ s with selected := none }, []) ∧
    step dict initial s (Input.drag r c (some (r, c))) = (s, []) := by
  constructor
  · simp [step, h]
  · simp [step]

/-- Witness for `c5_self_swap_noop` at a concrete selected state. -/
theorem c5_self_swap_noop_witness :
    step dict2 g2 { grid := g2, swaps := 3, selected := some (1, 2) }
        (Input.tap 1 2) =
      ({ grid := g2, swaps := 3, selected := none }, []) ∧
    step dict2 g2 { grid := g2, swaps := 3, selected := some (1, 2) }
        (Input.drag 1 2 (some (1, 2))) =
      ({ grid := g2, swaps := 3, selected := some (1, 2) }, []) :=
  c5_self_swap_noop dict2 g2 { grid := g2, swaps := 3, selected := some (1, 2) }
    1 2 rfl

/-- Claim C6: a row is valid exactly when the in-order concatenation of its
letters, lowercased, is a member of the dictionary, and the validity vector
has one entry per row of the grid. -/
theorem c6_row_validity (dict : List String) (g : List (List Char)) (r : Nat)
    (h : r < g.length) :
    ((validRows dict g).getD r false = true ↔ lowerWord (g.getD r []) ∈ dict) ∧
    (validRows dict g).length = g.length := by
  constructor
  · unfold validRows
    rw [List.getD_eq_getElem?_getD, List.getElem?_map,
      List.getElem?_eq_getElem h]
    rw [List.getD_eq_getElem?_getD, List.getElem?_eq_getElem h]
    simp [List.contains]
  · simp [validRows]

/-- Witness for `c6_row_validity`: an uppercase row matches its lowercase
dictionary entry. -/
theorem c6_row_validity_witness :
    (((validRows ["stack"] [['S', 'T', 'A', 'C', 'K']]).getD 0 false = true ↔
        lowerWord ([['S', 'T', 'A', 'C', 'K']].getD 0 []) ∈ ["stack"]) ∧
      (validRows ["stack"] [['S', 'T', 'A', 'C', 'K']]).length =
        [['S', 'T', 'A', 'C', 'K']].length) :=
  c6_row_validity ["stack"] [['S', 'T', 'A', 'C', 'K']] 0 (by decide)

/-- Claim C7: from any state, `reset()` restores the mount state (grid equal
to the original initial grid, counter 0, empty selection), emits the
swap-count-changed notification with value 0 first, and triggers no stale
row-solved events: the previous-validity tracking equals the fresh
mount-time tracking, so edge detection starts over exactly as at mount. -/
theorem c7_reset (dict : List String) (initial : List (List Char))
    (s : GridState) :
    (step dict initial s Input.reset).1 = initState initial ∧
    (step dict initial s Input.reset).1.grid = initial ∧
    (step dict initial s Input.reset).1.swaps = 0 ∧
    (step dict initial s Input.reset).1.selected = none ∧
    (step dict initial s Input.reset).2.head? = some (Event.swapCount 0) ∧
    rowSolvedEvents (prevValid dict initial)
        (validRows dict (step dict initial s Input.reset).1.grid) = [] := by
  refine ⟨rfl, rfl, rfl, rfl, rfl, ?_⟩
  exact rowSolvedEvents_self (validRows dict initial)

/-- Claim C8, counterexample: a reachable evaluation (the 15th accepted swap,
possible because `doSwap` has no budget guard) emits `onOutOfMoves` while the
swap counter is 15, not the configured maximum. -/
theorem c8_counterexample :
    ¬(runSteps [] cexGrid (runTrace [] cexGrid (swapPairs 14)).1
        [Input.tap 0 0, Input.tap 0 1]).1.swaps = MAX_SWAPS ∧
    Event.outOfMoves ∈
      (runSteps [] cexGrid (runTrace [] cexGrid (swapPairs 14)).1
          [Input.tap 0 0, Input.tap 0 1]).2 := by
  decide

/-- Claim C8, amended: the two outcomes are mutually exclusive with solved
taking precedence — whenever all rows are valid, `onSolved` fires and
`onOutOfMoves` does not, even at the budget ceiling — and `onOutOfMoves`
fires exactly when the counter is at or above the maximum and not all rows
are valid. -/
theorem c8_outcomes (dict : List String) (g : List (List Char)) (n : Nat) :
    ((validRows dict g).all (fun b => b) = true →
      Event.solved n ∈ statusEvents (validRows dict g) n ∧
        Event.outOfMoves ∉ statusEvents (validRows dict g) n) ∧
    (Event.outOfMoves ∈ statusEvents (validRows dict g) n ↔
      MAX_SWAPS ≤ n ∧ ¬(validRows dict g).all (fun b => b) = true) := by
  constructor
  · intro h
    constructor
    · simp [statusEvents, h]
    · simp [statusEvents, h]
  · by_cases h : (validRows dict g).all (fun b => b) = true
    · simp [statusEvents, h]
    · by_cases h2 : MAX_SWAPS ≤ n
      · simp [statusEvents, h, h2]
      · simp [statusEvents, h, h2]

/-- Witness for `c8_outcomes`: a fully valid grid evaluated exactly at the
ceiling emits solved and not out-of-moves. -/
theorem c8_outcomes_witness :
    (Event.solved 14 ∈ statusEvents (validRows ["ab"] [['a', 'b']]) 14 ∧
      Event.outOfMoves ∉ statusEvents (validRows ["ab"] [['a', 'b']]) 14) ∧
    (Event.outOfMoves ∈ statusEvents (validRows ["ab"] [['a', 'b']]) 14 ↔
      MAX_SWAPS ≤ 14 ∧ ¬(validRows ["ab"] [['a', 'b']]).all (fun b => b) = true) :=
  ⟨(c8_outcomes ["ab"] [['a', 'b']] 14).1 (by decide),
    (c8_outcomes ["ab"] [['a', 'b']] 14).2⟩

/-- The title line of the share summary, as computed inline by
`buildEmojiGrid`. -/
def emojiTitle (ok : Bool) (moves : Option Nat) (puzzleId : String)
    (hardMode : Bool) : String :=
  let tag := if hardMode then " (hard)" else ""
  if ok then
    "Jumbles " ++ puzzleId ++ tag ++ " — " ++ movesText moves ++ "/14 swaps"
  else
    "I got jumbled today" ++ tag ++ " :("

/-- Row lines as the amended specification words them: one line per tracked
row flag, the solved glyph repeated five times when the flag is set, the
unsolved glyph repeated five times when it is not. -/
def specShareLines (flags : List Bool) : List String :=
  flags.map (fun v => if v then "🟢🟢🟢🟢🟢" else "🔴🔴🔴🔴🔴")

/-- The share summary as the amended specification words it: a title line
followed by the per-flag row lines, joined by newlines. -/
def specShareSummary (title : String) (flags : List Bool) : String :=
  title ++ "\n" ++ String.intercalate "\n" (specShareLines flags)

/-- Claim C9, counterexample: in the trace of `inputs9`, row 0 is invalid at
game end, yet the share summary's first row line is the solved glyph
repeated five times — because the App's monotone `rowSolved` flag for
row 0 was set when the row was valid earlier. -/
theorem c9_counterexample :
    (validRows dict9 (runTrace dict9 g9 inputs9).1.grid).getD 0 false
        = false ∧
    buildEmojiGrid false none "1" false
        ((runTrace dict9 g9 inputs9).2.foldl applyEvent appInit).rowSolved =
      "I got jumbled today :(" ++ "\n" ++ "🟢🟢🟢🟢🟢" ++ "\n" ++
        "🔴🔴🔴🔴🔴" ++ "\n" ++ "🔴🔴🔴🔴🔴" ++ "\n" ++ "🔴🔴🔴🔴🔴" := by
  decide

/-- Claim C9, amended: the share summary is a pure function of the final
tracked state — the title followed by exactly one line per tracked row flag
in row order, the solved glyph repeated five times for a set flag (a row
that has been valid at some point) and the unsolved glyph repeated five
times otherwise; it matches the spec-shaped rendering, keeps one line per
flag, and realises the spec's [set, unset, set, set] example. -/
theorem c9_amended_summary (ok : Bool) (moves : Option Nat) (pid : String)
    (hard : Bool) (flags : List Bool) :
    buildEmojiGrid ok moves pid hard flags =
      specShareSummary (emojiTitle ok moves pid hard) flags ∧
    (specShareLines flags).length = flags.length ∧
    specShareLines [true, false, true, true] =
      ["🟢🟢🟢🟢🟢", "🔴🔴🔴🔴🔴", "🟢🟢🟢🟢🟢", "🟢🟢🟢🟢🟢"] := by
  refine ⟨?_, by simp [specShareLines], by decide⟩
  have hlines : shareRowLines flags = specShareLines flags := by
    unfold shareRowLines specShareLines
    apply List.map_congr_left
    intro v _
    cases v
    · decide
    · decide
  unfold buildEmojiGrid specShareSummary emojiTitle
  rw [hlines]

/-- Claim C10: the App's per-row solved flags are monotone during play — a
set flag survives any sequence of Grid callbacks — and the share summary
renders a set flag's row with the solved glyph repeated five times. -/
theorem c10_flags_monotone (a : AppState) (evs : List Event) (r : Nat)
    (h : a.rowSolved.getD r false = true) :
    (evs.foldl applyEvent a).rowSolved.getD r false = true ∧
    (shareRowLines (evs.foldl applyEvent a).rowSolved).getD r ""
      = repeatStr "🟢" 5 := by
  have key : ∀ (l : List Event) (b : AppState),
      b.rowSolved.getD r false = true →
      (l.foldl applyEvent b).rowSolved.getD r false = true := by
    intro l
    induction l with
    | nil => intro b hb; exact hb
    | cons e rest ih =>
      intro b hb
      refine ih (applyEvent b e) ?_
      cases e with
      | rowSolved i => exact getD_set_true b.rowSolved i r hb
      | solved m => exact hb
      | outOfMoves => exact hb
      | swapCount n => exact hb
  have h1 := key evs a h
  refine ⟨h1, ?_⟩
  have hr : r < (evs.foldl applyEvent a).rowSolved.length :=
    getD_false_lt_length _ r h1
  have hval : (evs.foldl applyEvent a).rowSolved.getD r false =
      (evs.foldl applyEvent a).rowSolved[r] := by
    rw [List.getD_eq_getElem?_getD, List.getElem?_eq_getElem hr]
    rfl
  unfold shareRowLines
  rw [List.getD_eq_getElem?_getD, List.getElem?_map,
    List.getElem?_eq_getElem hr]
  rw [hval] at h1
  simp [h1]

/-- Witness for `c10_flags_monotone`: a set flag for row 1 survives a
swap-count update, another row's solve, and a puzzle solve, and still
renders as the solved row line. -/
theorem c10_flags_monotone_witness :
    (([Event.swapCount 5, Event.rowSolved 2, Event.solved 7].foldl applyEvent
          { rowSolved := [false, true, false, false], solvedMoves := none,
            showGiveUp := false, swapCount := 0 }).rowSolved.getD 1 false
        = true) ∧
    (shareRowLines
          ([Event.swapCount 5, Event.rowSolved 2, Event.solved 7].foldl
              applyEvent
              { rowSolved := [false, true, false, false], solvedMoves := none,
                showGiveUp := false, swapCount := 0 }).rowSolved).getD 1 ""
      = repeatStr "🟢" 5 :=
  c10_flags_monotone
    { rowSolved := [false, true, false, false], solvedMoves := none,
      showGiveUp := false, swapCount := 0 }
    [Event.swapCount 5, Event.rowSolved 2, Event.solved 7] 1 rfl

/-! ## Letter conservation (claim C4) -/

lemma getD_set_self_of_lt {α : Type} (l : List α) (i : Nat) (b d : α)
    (h : i < l.length) : (l.set i b).getD i d = b := by
  rw [List.getD_eq_getElem?_getD, List.getElem?_set_self h]
  rfl

lemma getD_set_ne_of {α : Type} (l : List α) (i j : Nat) (b d : α)
    (hij : i ≠ j) : (l.set i b).getD j d = l.getD j d := by
  rw [List.getD_eq_getElem?_getD, List.getElem?_set_ne hij,
    ← List.getD_eq_getElem?_getD]

lemma coe_set_add (l : List Char) (i : Nat) (b : Char) (h : i < l.length) :
    ((l.set i b : List Char) : Multiset Char) + {l.getD i ' '} =
      (l : Multiset Char) + {b} := by
  induction l generalizing i with
  | nil => simp at h
  | cons a t ih =>
    cases i with
    | zero =>
      simp only [List.set_cons_zero, List.getD_cons_zero]
      rw [← Multiset.cons_coe, ← Multiset.cons_coe,
        ← Multiset.singleton_add, ← Multiset.singleton_add]
      abel
    | succ i =>
      simp only [List.set_cons_succ, List.getD_cons_succ]
      rw [← Multiset.cons_coe, ← Multiset.cons_coe,
        Multiset.cons_add, Multiset.cons_add,
        ih i (by simpa using h)]

lemma coe_set_swap (l : List Char) (i j : Nat) (hi : i < l.length)
    (hj : j < l.length) :
    (((l.set i (l.getD j ' ')).set j (l.getD i ' ')) : Multiset Char) =
      (l : Multiset Char) := by
  have h1 : (l.set i (l.getD j ' ')).getD j ' ' = l.getD j ' ' := by
    by_cases hij : i = j
    · subst hij
      exact getD_set_self_of_lt l i _ ' ' hi
    · exact getD_set_ne_of l i j _ ' ' hij
  have hlen : j < (l.set i (l.getD j ' ')).length := by simpa using hj
  have h2 := coe_set_add (l.set i (l.getD j ' ')) j (l.getD i ' ') hlen
  rw [h1] at h2
  rw [coe_set_add l i (l.getD j ' ') hi] at h2
  exact add_right_cancel h2

lemma flatten_set_add (g : List (List Char)) (r : Nat) (row : List Char)
    (h : r < g.length) :
    (((g.set r row).flatten : List Char) : Multiset Char) +
        ((g.getD r []) : Multiset Char) =
      ((g.flatten : List Char) : Multiset Char) + (row : Multiset Char) := by
  induction g generalizing r with
  | nil => simp at h
  | cons a t ih =>
    cases r with
    | zero =>
      simp only [List.set_cons_zero, List.flatten_cons, List.getD_cons_zero]
      rw [← Multiset.coe_add, ← Multiset.coe_add]
      abel
    | succ r =>
      simp only [List.set_cons_succ, List.flatten_cons, List.getD_cons_succ]
      rw [← Multiset.coe_add, ← Multiset.coe_add, add_assoc, add_assoc,
        ih r (by simpa using h)]

lemma length_setCell (g : List (List Char)) (r c : Nat) (ch : Char) :
    (setCell g r c ch).length = g.length := by
  simp [setCell]

lemma getD_length_setCell (g : List (List Char)) (r c : Nat) (ch : Char)
    (r' : Nat) :
    ((setCell g r c ch).getD r' []).length = (g.getD r' []).length := by
  unfold setCell
  by_cases hrr : r = r'
  · subst hrr
    by_cases hr : r < g.length
    · rw [getD_set_self_of_lt g r _ [] hr]
      simp
    · rw [List.set_eq_of_length_le (by omega)]
  · rw [getD_set_ne_of g r r' _ [] hrr]

lemma length_swapCells (g : List (List Char)) (r1 c1 r2 c2 : Nat) :
    (swapCells g r1 c1 r2 c2).length = g.length := by
  simp [swapCells, length_setCell]

lemma getD_length_swapCells (g : List (List Char)) (r1 c1 r2 c2 r' : Nat) :
    ((swapCells g r1 c1 r2 c2).getD r' []).length = (g.getD r' []).length := by
  unfold swapCells
  rw [getD_length_setCell, getD_length_setCell]


lemma cancel_chain {M : Type} [AddCancelCommMonoid M]
    (m2 m1 m0 u1 u2 v1 v2 sa sb : M)
    (k1 : m2 + u2 = m1 + v2) (k2 : m1 + u1 = m0 + v1)
    (k3 : v1 + sa = u1 + sb) (k4 : v2 + sb = u2 + sa) :
    m2 = m0 := by
  have e1 : m2 + sb = m1 + sa := by
    have h : m2 + sb + u2 = m1 + sa + u2 := by
      calc m2 + sb + u2 = m2 + u2 + sb := by abel
        _ = m1 + v2 + sb := by rw [k1]
        _ = m1 + (v2 + sb) := by rw [add_assoc]
        _ = m1 + (u2 + sa) := by rw [k4]
        _ = m1 + sa + u2 := by abel
    exact add_right_cancel h
  have e2 : m1 + sa = m0 + sb := by
    have h : m1 + sa + u1 = m0 + sb + u1 := by
      calc m1 + sa + u1 = m1 + u1 + sa := by abel
        _ = m0 + v1 + sa := by rw [k2]
        _ = m0 + (v1 + sa) := by rw [add_assoc]
        _ = m0 + (u1 + sb) := by rw [k3]
        _ = m0 + sb + u1 := by abel
    exact add_right_cancel h
  exact add_right_cancel (e1.trans e2)

lemma gridLetters_swapCells (g : List (List Char)) (r1 c1 r2 c2 : Nat)
    (h1 : r1 < g.length) (h2 : c1 < (g.getD r1 []).length)
    (h3 : r2 < g.length) (h4 : c2 < (g.getD r2 []).length) :
    gridLetters (swapCells g r1 c1 r2 c2) = gridLetters g := by
  unfold gridLetters swapCells setCell getCell
  by_cases hr : r1 = r2
  · subst hr
    rw [getD_set_self_of_lt g r1 _ [] h1, List.set_set]
    have hs := flatten_set_add g r1
      (((g.getD r1 []).set c1 ((g.getD r1 []).getD c2 ' ')).set c2
        ((g.getD r1 []).getD c1 ' ')) h1
    rw [coe_set_swap (g.getD r1 []) c1 c2 h2 h4] at hs
    exact add_right_cancel hs
  · rw [getD_set_ne_of g r1 r2 _ [] hr]
    have hg1len : r2 <
        (g.set r1 ((g.getD r1 []).set c1 ((g.getD r2 []).getD c2 ' '))).length := by
      simpa using h3
    have k1 := flatten_set_add
      (g.set r1 ((g.getD r1 []).set c1 ((g.getD r2 []).getD c2 ' '))) r2
      ((g.getD r2 []).set c2 ((g.getD r1 []).getD c1 ' ')) hg1len
    rw [getD_set_ne_of g r1 r2 _ [] hr] at k1
    have k2 := flatten_set_add g r1
      ((g.getD r1 []).set c1 ((g.getD r2 []).getD c2 ' ')) h1
    have k3 := coe_set_add (g.getD r1 []) c1 ((g.getD r2 []).getD c2 ' ') h2
    have k4 := coe_set_add (g.getD r2 []) c2 ((g.getD r1 []).getD c1 ' ') h4
    exact cancel_chain _ _ _ _ _ _ _
      ({(g.getD r1 []).getD c1 ' '} : Multiset Char)
      ({(g.getD r2 []).getD c2 ' '} : Multiset Char) k1 k2 k3 k4

/-- Claim C4: for every sequence of in-bounds swap requests, applying them
all through the `doSwap` cell exchange leaves the multiset of letters in
the grid unchanged — no letter is created, destroyed, or duplicated. -/
theorem c4_letter_conservation (g : List (List Char))
    (reqs : List (Nat × Nat × Nat × Nat))
    (h : ∀ q ∈ reqs, inBoundsReq g q) :
    gridLetters (applySwaps g reqs) = gridLetters g := by
  induction reqs generalizing g with
  | nil => rfl
  | cons q rest ih =>
    obtain ⟨hq1, hq2, hq3, hq4⟩ := h q (by simp)
    have hrest : ∀ p ∈ rest,
        inBoundsReq (swapCells g q.1 q.2.1 q.2.2.1 q.2.2.2) p := by
      intro p hp
      obtain ⟨a1, a2, a3, a4⟩ := h p (by simp [hp])
      exact ⟨by rw [length_swapCells]; exact a1,
        by rw [getD_length_swapCells]; exact a2,
        by rw [length_swapCells]; exact a3,
        by rw [getD_length_swapCells]; exact a4⟩
    calc gridLetters (applySwaps g (q :: rest))
        = gridLetters (applySwaps (swapCells g q.1 q.2.1 q.2.2.1 q.2.2.2) rest) :=
          rfl
      _ = gridLetters (swapCells g q.1 q.2.1 q.2.2.1 q.2.2.2) := ih _ hrest
      _ = gridLetters g := gridLetters_swapCells g _ _ _ _ hq1 hq2 hq3 hq4

/-- Witness for `c4_letter_conservation`: two in-bounds swaps on the
concrete 4×5 grid preserve its letters. -/
theorem c4_letter_conservation_witness :
    (∀ q ∈ [(0, 1, 2, 3), ((3 : Nat), (4 : Nat), (0 : Nat), (0 : Nat))],
      inBoundsReq cexGrid q) ∧
    gridLetters (applySwaps cexGrid [(0, 1, 2, 3), (3, 4, 0, 0)]) =
      gridLetters cexGrid :=
  ⟨by decide, c4_letter_conservation cexGrid [(0, 1, 2, 3), (3, 4, 0, 0)]
    (by decide)⟩
